import Mathlib

/-!
Shallow embedding of `src/library/qpolarsslpki_priv.hpp` (class `qpolarssl::priv::Pki`,
a Qt wrapper around the polarssl `pk_*` public-key API), together with theorems about
the behaviour claimed for it.

Modelling conventions:
* `QByteArray` is modelled as `List Nat` (a byte buffer).
* The native polarssl context `pk_context` is modelled by the observations the wrapper
  makes of it: `pk_get_type` (its type tag) and `pk_get_len` (its key size in bytes).
  `pk_init` / `pk_free` yield the empty context (type `POLARSSL_PK_NONE`, length 0).
* The native primitives `pk_parse_key`, `pk_parse_public_key`, `pk_sign`, `pk_verify`,
  `pk_encrypt`, `pk_decrypt` and the hash service `Hash::hash` are external
  collaborators; each is passed in as an oracle function parameter, and the wrapper
  methods are defined exactly as the C++ code combines those calls. The random source
  (`ctr_drbg_random` plus its context) is folded into the sign/encrypt/decrypt oracles.
* The fixed stack output buffer `uint8_t buffer[POLARSSL_MPI_MAX_SIZE]` is modelled by
  the oracle returning the buffer content after the call together with the produced
  length `olen`; `QByteArray((const char*)buffer, olen)` becomes `buffer.take olen`.
-/

namespace QPolarSSL

/-- `pk_type_t` of polarssl `pk.h`. -/
inductive PkType where
  | none
  | rsa
  | eckey
  | eckeyDh
  | ecdsa
  | rsaAlt
  | rsassaPss
  deriving DecidableEq, Repr

/-- `md_type_t` of polarssl `md.h` (hash algorithm identifiers). -/
inductive MdType where
  | none
  | md2
  | md4
  | md5
  | sha1
  | sha224
  | sha256
  | sha384
  | sha512
  | ripemd160
  deriving DecidableEq, Repr

/-- A byte buffer (`QByteArray`). -/
abbrev Bytes := List Nat

/-- `POLARSSL_MPI_MAX_SIZE` (polarssl `bignum.h`): size of the fixed output buffer
used by `sign`, `encrypt` and `decrypt`. -/
def POLARSSL_MPI_MAX_SIZE : Nat := 1024

/-- The native `pk_context`, modelled by the observations the wrapper makes of it:
`ptype` is `pk_get_type(ctx)` and `len` is `pk_get_len(ctx)` in bytes. -/
structure PkContext where
  ptype : PkType
  len : Nat
  deriving DecidableEq, Repr

/-- The state `pk_init` / `pk_free` leave the native context in: no key material,
type `POLARSSL_PK_NONE`, key length 0. -/
def PkContext.empty : PkContext := ⟨PkType.none, 0⟩

/-- `pk_info_from_type` (the algorithm registry of polarssl `pk.c`): a non-NULL
descriptor exists for RSA, ECKEY, ECKEY_DH and ECDSA; NULL is returned for
`POLARSSL_PK_NONE`, RSA_ALT and RSASSA_PSS. The descriptor is represented by the
type it describes. -/
def pk_info_from_type (t : PkType) : Option PkType :=
  match t with
  | PkType.none => Option.none
  | PkType.rsaAlt => Option.none
  | PkType.rsassaPss => Option.none
  | t => some t

/-- The `Pki` class state: `itype` is the member `pk_type_t itype` (initialised to
`POLARSSL_PK_NONE`, assigned only in the constructor), `ictx` the native context
member `pk_context ictx`. The `Random irandom` member is folded into the native
oracles it is handed to. -/
structure Pki where
  itype : PkType
  ictx : PkContext
  deriving DecidableEq, Repr

/-- The constructor `Pki(pk_type_t t)`, delegating to `Pki(const pk_info_t*)`:
with a non-NULL descriptor it sets `itype = pinfo->type` and runs
`pk_init_ctx(context(), pinfo)` (typed context, no key yet, so length 0);
with NULL it leaves `itype` at its initialiser `POLARSSL_PK_NONE` and runs
`pk_init(context())`. -/
def Pki.construct (t : PkType) : Pki :=
  match pk_info_from_type t with
  | some ty => { itype := ty, ictx := { ptype := ty, len := 0 } }
  | Option.none => { itype := PkType.none, ictx := PkContext.empty }

/-- `Pki::isValid()`: `return itype != POLARSSL_PK_NONE;`. -/
def Pki.isValid (p : Pki) : Bool :=
  decide (p.itype ≠ PkType.none)

/-- `Pki::reset()`: `pk_free(context());` — frees the native context (leaving it in
the empty state); the `itype` member is not touched. -/
def Pki.reset (p : Pki) : Pki :=
  { p with ictx := PkContext.empty }

/-- `Pki::keySizeBytes()`: `return pk_get_len(context());`. -/
def Pki.keySizeBytes (p : Pki) : Nat :=
  p.ictx.len

/-- `Pki::type()`: `return pk_get_type(context());`. -/
def Pki.pkType (p : Pki) : PkType :=
  p.ictx.ptype

/-- The passphrase arguments `Pki::parseKey` hands to `pk_parse_key`
(lines 86-88 and 93 of the header): the pointer is `password.constData()` when
`password.length() > 0` and NULL otherwise; the length argument is always
`password.length()`. -/
structure PwdArgs where
  ptr : Option Bytes
  len : Nat
  deriving DecidableEq, Repr

/-- Computation of the passphrase arguments from the `password` byte array,
exactly as in `Pki::parseKey`. -/
def passwordArgs (password : Bytes) : PwdArgs :=
  { ptr := if password.length > 0 then some password else Option.none
    len := password.length }

/-- The C++ default argument of the `password` parameter: `QByteArray()`,
an empty byte array. -/
def defaultPassword : Bytes := []

/-- Oracle for the native `pk_parse_key`: from the key bytes and the passphrase
arguments it either succeeds (return code 0) with the parsed key content — type and
size inferred from the material — or fails with a nonzero error code, in which case
polarssl leaves the context freed (empty). -/
abbrev PkParseNative := Bytes → PwdArgs → Except Int PkContext

/-- Oracle for the native `pk_parse_public_key`, analogous but without passphrase. -/
abbrev PkParsePubNative := Bytes → Except Int PkContext

/-- `Pki::parseKey(keyData, password)`: computes the passphrase arguments, calls
`reset()`, then `pk_parse_key(context(), key, keyData.length(), pwd,
password.length())`; a nonzero result is logged via `qDebug` and returned. The
returned pair is (native return code, resulting object state). -/
def Pki.parseKey (native : PkParseNative) (p : Pki) (keyData password : Bytes) :
    Int × Pki :=
  let pwd := passwordArgs password
  let p1 := p.reset
  match native keyData pwd with
  | Except.ok content => (0, { p1 with ictx := content })
  | Except.error e => (e, { p1 with ictx := PkContext.empty })

/-- `Pki::parsePublicKey(keyData)`: `reset()` then
`pk_parse_public_key(context(), key, keyData.length())`. -/
def Pki.parsePublicKey (native : PkParsePubNative) (p : Pki) (keyData : Bytes) :
    Int × Pki :=
  let p1 := p.reset
  match native keyData with
  | Except.ok content => (0, { p1 with ictx := content })
  | Except.error e => (e, { p1 with ictx := PkContext.empty })

/-- `Pki::parseKeyFrom(filePath, password)`: `keyData` starts empty and is set to
`f.readAll()` only if the file opens; the read outcome is modelled as
`Option Bytes` (`Option.none` = the open failed). The result is always
`parseKey(keyData, password)`. -/
def Pki.parseKeyFrom (native : PkParseNative) (p : Pki) (fileContent : Option Bytes)
    (password : Bytes) : Int × Pki :=
  let keyData := match fileContent with
    | some d => d
    | Option.none => []
  p.parseKey native keyData password

/-- `Pki::parsePublicKeyFrom(filePath)`: same file handling, then
`parsePublicKey(keyData)`. -/
def Pki.parsePublicKeyFrom (native : PkParsePubNative) (p : Pki)
    (fileContent : Option Bytes) : Int × Pki :=
  let keyData := match fileContent with
    | some d => d
    | Option.none => []
  p.parsePublicKey native keyData

/-- Oracle for the hash service `Hash::hash(message, algorithm)`. -/
abbrev HashFn := Bytes → MdType → Bytes

/-- `Pki::prepare(message, algo)`:
`int maxLength = pk_get_len(context());` then
`(message.length() < maxLength && algo == POLARSSL_MD_NONE) ? message
 : Hash::hash(message, algo)`. -/
def Pki.prepare (hashFn : HashFn) (p : Pki) (message : Bytes) (algo : MdType) :
    Bytes :=
  if message.length < p.keySizeBytes ∧ algo = MdType.none then message
  else hashFn message algo

/-- `Pki::checkSize(hash)`:
`int maxLength = pk_get_len(context()); return maxLength >= hash.length();`. -/
def Pki.checkSize (p : Pki) (hash : Bytes) : Bool :=
  decide (p.keySizeBytes ≥ hash.length)

/-- Oracle for the native `pk_sign`: arguments are the algorithm, the digest bytes
and the digest-length argument; it fails with a nonzero code, or succeeds returning
the produced length `olen` and the content of the output buffer after the call.
The random source passed by the wrapper is folded into the oracle. -/
abbrev PkSignNative := MdType → Bytes → Nat → Except Int (Nat × Bytes)

/-- Oracle for the native `pk_verify`: algorithm, digest bytes, digest-length
argument, signature bytes and signature length; returns the native status code
(0 = verified, distinct nonzero codes for mismatch and operation errors). -/
abbrev PkVerifyNative := MdType → Bytes → Nat → Bytes → Nat → Int

/-- Oracle for the native `pk_encrypt` / `pk_decrypt`: input bytes to either a
nonzero error code or the produced length `olen` and the content of the output
buffer after the call. The output-size bound and random source the wrapper passes
are folded into the oracle. -/
abbrev PkCipherNative := Bytes → Except Int (Nat × Bytes)

/-- `Pki::sign(message, algorithm)`: `hash = prepare(message, algorithm)`, then
`pk_sign(context(), algorithm, hash.constData(), 0, buffer, &olen, ...)`; on
nonzero return the failure is logged and an empty `QByteArray` returned, otherwise
`QByteArray((const char*)buffer, olen)`. Note the digest-length argument is the
literal `0`. -/
def Pki.sign (native : PkSignNative) (hashFn : HashFn) (p : Pki)
    (message : Bytes) (algorithm : MdType) : Bytes :=
  let hash := p.prepare hashFn message algorithm
  match native algorithm hash 0 with
  | Except.error _ => []
  | Except.ok (olen, buffer) => buffer.take olen

/-- `Pki::verify(message, signature, algorithm)`: `hash = prepare(...)`, then the
native status of `pk_verify(context(), algorithm, hash.constData(), 0,
signature.constData(), signature.length())` is returned unchanged as an `int`. -/
def Pki.verify (native : PkVerifyNative) (hashFn : HashFn) (p : Pki)
    (message signature : Bytes) (algorithm : MdType) : Int :=
  let hash := p.prepare hashFn message algorithm
  native algorithm hash 0 signature signature.length

/-- `Pki::encrypt(hash)`: if `!checkSize(hash)` the failure is logged and an empty
`QByteArray` returned without calling the native primitive; otherwise
`pk_encrypt(context(), hash.constData(), hash.length(), buffer, &olen,
POLARSSL_MPI_MAX_SIZE, ...)` runs, a nonzero return yields an empty `QByteArray`,
and success yields `QByteArray((const char*)buffer, olen)`. -/
def Pki.encrypt (native : PkCipherNative) (p : Pki) (hash : Bytes) : Bytes :=
  if !(p.checkSize hash) then []
  else
    match native hash with
    | Except.error _ => []
    | Except.ok (olen, buffer) => buffer.take olen

/-- `Pki::decrypt(hash)`: identical structure to `encrypt`, with the native
`pk_decrypt`. -/
def Pki.decrypt (native : PkCipherNative) (p : Pki) (hash : Bytes) : Bytes :=
  if !(p.checkSize hash) then []
  else
    match native hash with
    | Except.error _ => []
    | Except.ok (olen, buffer) => buffer.take olen

/-! Concrete oracles and states used to evaluate the theorems on closed inputs. -/

/-- A native parse oracle that succeeds, yielding a 2048-bit RSA key (256 bytes). -/
def rsaParseOk : PkParseNative := fun _ _ => Except.ok ⟨PkType.rsa, 256⟩

/-- A native parse oracle that always fails with `POLARSSL_ERR_PK_KEY_INVALID_FORMAT`
(-0x3D00 = -15616). -/
def parseFail : PkParseNative := fun _ _ => Except.error (-15616)

/-- A native public-key parse oracle that always fails with the same code. -/
def pubParseFail : PkParsePubNative := fun _ => Except.error (-15616)

/-- A `Pki` state holding a loaded 256-bit key (32 bytes capacity), as after a
successful parse on an RSA-constructed context. -/
def samplePki : Pki := ⟨PkType.rsa, ⟨PkType.rsa, 32⟩⟩

/-- A concrete hash-service oracle. -/
def sampleHash : HashFn := fun m _ => [m.length % 256]

/-- A message exactly at the sample key capacity (32 bytes). -/
def boundaryMsg : Bytes := List.replicate 32 0

/-- An input one byte over the sample key capacity. -/
def bigData : Bytes := List.replicate 33 1

/-- A native cipher oracle that succeeds with produced length 3 and a 4-byte buffer
state. -/
def cipherOk : PkCipherNative := fun _ => Except.ok (3, [5, 6, 7, 8])

/-- A native cipher oracle that always fails with `POLARSSL_ERR_RSA_INVALID_PADDING`
(-0x4100 = -16640). -/
def cipherFail : PkCipherNative := fun _ => Except.error (-16640)

/-- The fixed output buffer after a native call: `POLARSSL_MPI_MAX_SIZE` bytes. -/
def bigBuffer : Bytes := List.replicate POLARSSL_MPI_MAX_SIZE 9

/-- A native sign oracle that succeeds with produced length 5 and the full-size
buffer state. -/
def sign1024 : PkSignNative := fun _ _ _ => Except.ok (5, bigBuffer)

/-- A native sign oracle that always fails with `POLARSSL_ERR_PK_TYPE_MISMATCH`
(-0x3F00 = -16128). -/
def signFailN : PkSignNative := fun _ _ _ => Except.error (-16128)

/-- A native sign oracle that behaves like `signFailN` unless the digest-length
argument is 0, in which case it succeeds like a fixed oracle; used to show the
wrapper only ever calls the primitive with digest length 0. -/
def signLenProbe : PkSignNative := fun _ _ l =>
  if l = 0 then Except.ok (1, [3]) else Except.error (-16128)

/-- A native sign oracle constantly equal to `signLenProbe` at digest length 0. -/
def signLenConst : PkSignNative := fun _ _ _ => Except.ok (1, [3])

/-- A native verify oracle depending on the digest-length argument. -/
def verifyLenProbe : PkVerifyNative := fun _ _ l _ _ => if l = 0 then 0 else 5

/-- A native verify oracle constantly equal to `verifyLenProbe` at digest length 0. -/
def verifyLenConst : PkVerifyNative := fun _ _ _ _ _ => 0

/-- A native verify oracle reporting success (0). -/
def verifyOkN : PkVerifyNative := fun _ _ _ _ _ => 0

/-- A native verify oracle reporting a non-matching signature,
`POLARSSL_ERR_RSA_VERIFY_FAILED` (-0x4380 = -17280). -/
def verifyMismatchN : PkVerifyNative := fun _ _ _ _ _ => -17280

/-- A native verify oracle reporting an operation error,
`POLARSSL_ERR_PK_SIG_LEN_MISMATCH` (-0x2000 = -8192). -/
def verifyOpErrN : PkVerifyNative := fun _ _ _ _ _ => -8192

/-- A native parse oracle that reports, through its error code, exactly which
passphrase arguments reached the native boundary: -1000 for a NULL pointer,
-2000 for a non-NULL one, plus the length argument. -/
def pwdProbe : PkParseNative := fun _ pwd =>
  Except.error ((match pwd.ptr with
    | Option.none => -1000
    | some _ => -2000) + Int.ofNat pwd.len)

/-!  Theorems about the claims. -/

/-- Claim C1, evaluated at the failing input: `isValid()` does not track parses.
On a context constructed empty, a successful `parseKey` (native return 0, RSA key
content inferred from the material) leaves `isValid()` false, because `parseKey`
never assigns the `itype` member even though the native context now holds a usable
RSA key; conversely, on a context constructed with the RSA type, a failed
`parseKey` leaves the native context empty yet `isValid()` still returns true. -/
theorem C1_isValid_ignores_parse :
    ((Pki.construct PkType.none).parseKey rsaParseOk [48, 130] []).1 = 0 ∧
    ((Pki.construct PkType.none).parseKey rsaParseOk [48, 130] []).2.pkType =
      PkType.rsa ∧
    ((Pki.construct PkType.none).parseKey rsaParseOk [48, 130] []).2.isValid =
      false ∧
    ((Pki.construct PkType.rsa).parseKey parseFail [48, 130] []).2.ictx =
      PkContext.empty ∧
    ((Pki.construct PkType.rsa).parseKey parseFail [48, 130] []).2.isValid =
      true := by
  decide

/-- Claim C2, counterexample: after `reset()` on a context constructed with the RSA
type, `isValid()` is not false — `reset()` frees the native context but leaves the
`itype` member untouched, so the context does not return to the state where
`isValid()` reports empty. -/
theorem C2_reset_isValid_true :
    ¬ (((Pki.construct PkType.rsa).reset).isValid = false) := by
  decide

/-- Claim C2, amended: `reset()` releases the native resource (the native context
returns to the empty state), `reset()` on an already-empty native context is a
no-op, and repeated `reset()` is always safe (idempotent); however `isValid()` and
the stored type tag are unchanged by `reset()`. -/
theorem C2_reset_amended (p : Pki) :
    (p.reset).ictx = PkContext.empty ∧
    (p.ictx = PkContext.empty → p.reset = p) ∧
    (p.reset).reset = p.reset ∧
    (p.reset).isValid = p.isValid ∧
    (p.reset).itype = p.itype := by
  refine ⟨rfl, ?_, rfl, rfl, rfl⟩
  intro h
  cases p
  simp_all [Pki.reset]

/-- Witness for `C2_reset_amended`: on the empty-constructed context, whose native
context is already empty, `reset()` is a no-op. -/
theorem C2_reset_amended_holds :
    (Pki.construct PkType.none).reset = Pki.construct PkType.none :=
  (C2_reset_amended (Pki.construct PkType.none)).2.1 rfl

/-- Claim C3: `prepare(message, algo)` returns the message unchanged exactly when
the algorithm is `POLARSSL_MD_NONE` and the message length is strictly below the
key capacity; with any other algorithm, or with length at or above the capacity
(including the boundary case length = capacity), it returns the hash-service
result `Hash::hash(message, algo)`. -/
theorem C3_prepare_bypass (hashFn : HashFn) (p : Pki) (m : Bytes) (a : MdType) :
    (a = MdType.none → m.length < p.keySizeBytes → p.prepare hashFn m a = m) ∧
    (a ≠ MdType.none → p.prepare hashFn m a = hashFn m a) ∧
    (p.keySizeBytes ≤ m.length → p.prepare hashFn m a = hashFn m a) ∧
    (m.length = p.keySizeBytes → p.prepare hashFn m a = hashFn m a) := by
  refine ⟨?_, ?_, ?_, ?_⟩
  · intro ha hlt; simp [Pki.prepare, ha, hlt]
  · intro ha; simp [Pki.prepare, ha]
  · intro hle; simp [Pki.prepare, Nat.not_lt.mpr hle]
  · intro he; simp [Pki.prepare, he]

/-- Witness for `C3_prepare_bypass` on the sample 32-byte-capacity context: a
3-byte message with no algorithm is passed through; the same message with SHA-256
is hashed; a message exactly at the capacity boundary is hashed even with no
algorithm. -/
theorem C3_prepare_bypass_holds :
    samplePki.prepare sampleHash [1, 2, 3] MdType.none = [1, 2, 3] ∧
    samplePki.prepare sampleHash [1, 2, 3] MdType.sha256 =
      sampleHash [1, 2, 3] MdType.sha256 ∧
    samplePki.prepare sampleHash boundaryMsg MdType.none =
      sampleHash boundaryMsg MdType.none :=
  ⟨(C3_prepare_bypass sampleHash samplePki [1, 2, 3] MdType.none).1 rfl (by decide),
   (C3_prepare_bypass sampleHash samplePki [1, 2, 3] MdType.sha256).2.1 (by decide),
   (C3_prepare_bypass sampleHash samplePki boundaryMsg MdType.none).2.2.2
     (by decide)⟩

/-- Claim C4: `checkSize(buffer)` is true exactly when the key capacity in bytes is
at least the buffer length; whenever it is false, `encrypt` and `decrypt` return an
empty result whose value does not depend on the native primitive at all (the
primitive is never invoked); when it is true and the native call succeeds with
produced length `olen`, the result is the output buffer truncated to `olen` bytes;
a native failure also yields an empty result. -/
theorem C4_checkSize_guards_cipher (p : Pki) (data : Bytes)
    (native native2 : PkCipherNative) :
    (p.checkSize data = true ↔ p.keySizeBytes ≥ data.length) ∧
    (p.checkSize data = false →
      p.encrypt native data = [] ∧ p.decrypt native data = [] ∧
      p.encrypt native data = p.encrypt native2 data ∧
      p.decrypt native data = p.decrypt native2 data) ∧
    (∀ olen buffer, p.checkSize data = true →
      native data = Except.ok (olen, buffer) → olen ≤ buffer.length →
      p.encrypt native data = buffer.take olen ∧
      (p.encrypt native data).length = olen ∧
      p.decrypt native data = buffer.take olen ∧
      (p.decrypt native data).length = olen) ∧
    (∀ e, p.checkSize data = true → native data = Except.error e →
      p.encrypt native data = [] ∧ p.decrypt native data = []) := by
  refine ⟨?_, ?_, ?_, ?_⟩
  · simp [Pki.checkSize]
  · intro hf
    simp [Pki.encrypt, Pki.decrypt, hf]
  · intro olen buffer ht hn hlen
    simp [Pki.encrypt, Pki.decrypt, ht, hn, List.length_take,
      Nat.min_eq_left hlen]
  · intro e ht hn
    simp [Pki.encrypt, Pki.decrypt, ht, hn]

/-- Witness for `C4_checkSize_guards_cipher` on the sample 32-byte-capacity
context: a 33-byte input fails the guard and both ciphers return empty regardless
of the native oracle; a 2-byte input passes the guard and the successful native
call (olen = 3, buffer = [5,6,7,8]) yields the 3-byte truncation; a native failure
yields empty. -/
theorem C4_checkSize_guards_cipher_holds :
    samplePki.checkSize bigData = false ∧
    samplePki.encrypt cipherOk bigData = [] ∧
    samplePki.decrypt cipherOk bigData = [] ∧
    samplePki.encrypt cipherOk [1, 2] = [5, 6, 7] ∧
    (samplePki.encrypt cipherOk [1, 2]).length = 3 ∧
    samplePki.encrypt cipherFail [1, 2] = [] := by
  refine ⟨by decide, ?_, ?_, ?_, ?_, ?_⟩
  · exact ((C4_checkSize_guards_cipher samplePki bigData cipherOk cipherFail).2.1
      (by decide)).1
  · exact ((C4_checkSize_guards_cipher samplePki bigData cipherOk cipherFail).2.1
      (by decide)).2.1
  · simpa using ((C4_checkSize_guards_cipher samplePki [1, 2] cipherOk
      cipherFail).2.2.1 3 [5, 6, 7, 8] (by decide) rfl (by decide)).1
  · exact ((C4_checkSize_guards_cipher samplePki [1, 2] cipherOk
      cipherFail).2.2.1 3 [5, 6, 7, 8] (by decide) rfl (by decide)).2.1
  · exact ((C4_checkSize_guards_cipher samplePki [1, 2] cipherFail
      cipherOk).2.2.2 (-16640) (by decide) rfl).1

/-- Claim C5: when the file read fails (the file does not open), `parseKeyFrom`
is exactly `parseKey` on the empty byte buffer, and `parsePublicKeyFrom` is
exactly `parsePublicKey` on the empty buffer; no distinct I/O error is produced —
the failure flows through to the native parse, and when that parse fails on the
empty buffer its error code is returned with the context left empty. -/
theorem C5_file_read_failure (native : PkParseNative) (nativePub : PkParsePubNative)
    (p : Pki) (password : Bytes) :
    p.parseKeyFrom native Option.none password = p.parseKey native [] password ∧
    p.parsePublicKeyFrom nativePub Option.none = p.parsePublicKey nativePub [] ∧
    (∀ e, native [] (passwordArgs password) = Except.error e →
      (p.parseKeyFrom native Option.none password).1 = e ∧
      (p.parseKeyFrom native Option.none password).2.ictx = PkContext.empty) ∧
    (∀ e, nativePub [] = Except.error e →
      (p.parsePublicKeyFrom nativePub Option.none).1 = e ∧
      (p.parsePublicKeyFrom nativePub Option.none).2.ictx = PkContext.empty) := by
  refine ⟨rfl, rfl, ?_, ?_⟩
  · intro e he
    simp [Pki.parseKeyFrom, Pki.parseKey, he]
  · intro e he
    simp [Pki.parsePublicKeyFrom, Pki.parsePublicKey, he]

/-- Witness for `C5_file_read_failure`: with a failing native parse oracle
(key-invalid-format, -15616), a failed file read on an RSA-constructed context
produces exactly that parse error code and an empty native context, for both
private- and public-key loading. -/
theorem C5_file_read_failure_holds :
    ((Pki.construct PkType.rsa).parseKeyFrom parseFail Option.none []).1 =
      -15616 ∧
    ((Pki.construct PkType.rsa).parseKeyFrom parseFail Option.none []).2.ictx =
      PkContext.empty ∧
    ((Pki.construct PkType.rsa).parsePublicKeyFrom pubParseFail Option.none).1 =
      -15616 := by
  refine ⟨?_, ?_, ?_⟩
  · exact ((C5_file_read_failure parseFail pubParseFail (Pki.construct PkType.rsa)
      []).2.2.1 (-15616) rfl).1
  · exact ((C5_file_read_failure parseFail pubParseFail (Pki.construct PkType.rsa)
      []).2.2.1 (-15616) rfl).2
  · exact ((C5_file_read_failure parseFail pubParseFail (Pki.construct PkType.rsa)
      []).2.2.2 (-15616) rfl).1

/-- Claim C6: `sign(message, algorithm)` returns an empty result whenever the
native sign primitive fails; on success it returns exactly the `olen` bytes the
primitive wrote into the output buffer (its state truncated to `olen`), and since
the buffer has the fixed size `POLARSSL_MPI_MAX_SIZE` and the produced length is
bounded by it, the result length is `olen` and at most that constant. -/
theorem C6_sign_result (native : PkSignNative) (hashFn : HashFn) (p : Pki)
    (m : Bytes) (a : MdType) :
    (∀ e, native a (p.prepare hashFn m a) 0 = Except.error e →
      p.sign native hashFn m a = []) ∧
    (∀ olen buffer, native a (p.prepare hashFn m a) 0 = Except.ok (olen, buffer) →
      buffer.length = POLARSSL_MPI_MAX_SIZE → olen ≤ POLARSSL_MPI_MAX_SIZE →
      p.sign native hashFn m a = buffer.take olen ∧
      (p.sign native hashFn m a).length = olen ∧
      (p.sign native hashFn m a).length ≤ POLARSSL_MPI_MAX_SIZE) := by
  constructor
  · intro e he
    simp [Pki.sign, he]
  · intro olen buffer hn hlen hb
    have hol : olen ≤ buffer.length := hlen ▸ hb
    refine ⟨?_, ?_, ?_⟩
    · simp [Pki.sign, hn]
    · simp [Pki.sign, hn, List.length_take, Nat.min_eq_left hol]
    · simp only [Pki.sign, hn, List.length_take]
      omega

/-- Witness for `C6_sign_result`: a failing native sign yields the empty result; a
successful native sign with olen = 5 and the full 1024-byte buffer yields a 5-byte
signature, within the `POLARSSL_MPI_MAX_SIZE` bound. -/
theorem C6_sign_result_holds :
    samplePki.sign signFailN sampleHash [1, 2] MdType.sha256 = [] ∧
    (samplePki.sign sign1024 sampleHash [1, 2] MdType.sha256).length = 5 ∧
    (samplePki.sign sign1024 sampleHash [1, 2] MdType.sha256).length ≤
      POLARSSL_MPI_MAX_SIZE := by
  refine ⟨?_, ?_, ?_⟩
  · exact (C6_sign_result signFailN sampleHash samplePki [1, 2]
      MdType.sha256).1 (-16128) rfl
  · exact ((C6_sign_result sign1024 sampleHash samplePki [1, 2]
      MdType.sha256).2 5 bigBuffer rfl (by simp [bigBuffer]) (by decide)).2.1
  · exact ((C6_sign_result sign1024 sampleHash samplePki [1, 2]
      MdType.sha256).2 5 bigBuffer rfl (by simp [bigBuffer]) (by decide)).2.2

/-- Claim C7: `verify` passes the native verification status through unchanged as
its result, so any two native statuses that differ — in particular 0 (verified),
the non-matching-signature code and an operation-error code — remain
distinguishable to the caller; the status is never collapsed into a boolean. -/
theorem C7_verify_status_passthrough (native native2 : PkVerifyNative)
    (hashFn : HashFn) (p : Pki) (m s : Bytes) (a : MdType)
    (h : native a (p.prepare hashFn m a) 0 s s.length ≠
         native2 a (p.prepare hashFn m a) 0 s s.length) :
    p.verify native hashFn m s a =
      native a (p.prepare hashFn m a) 0 s s.length ∧
    p.verify native hashFn m s a ≠ p.verify native2 hashFn m s a :=
  ⟨rfl, by simpa [Pki.verify] using h⟩

/-- Witness for `C7_verify_status_passthrough`: the three concrete native statuses
0 (verified), -17280 (signature does not match) and -8192 (operation error) yield
three pairwise-distinguishable `verify` results. -/
theorem C7_verify_status_passthrough_holds :
    samplePki.verify verifyOkN sampleHash [1] [2] MdType.sha1 ≠
      samplePki.verify verifyMismatchN sampleHash [1] [2] MdType.sha1 ∧
    samplePki.verify verifyMismatchN sampleHash [1] [2] MdType.sha1 ≠
      samplePki.verify verifyOpErrN sampleHash [1] [2] MdType.sha1 :=
  ⟨(C7_verify_status_passthrough verifyOkN verifyMismatchN sampleHash samplePki
      [1] [2] MdType.sha1 (by decide)).2,
   (C7_verify_status_passthrough verifyMismatchN verifyOpErrN sampleHash samplePki
      [1] [2] MdType.sha1 (by decide)).2⟩

/-- Claim C8, counterexample: an absent passphrase (the C++ default argument, an
empty `QByteArray`) and a present-but-empty passphrase DO pass identical
arguments to the native parse primitive — both pass a NULL pointer and length 0 —
so the two `parseKey` calls are indistinguishable even to a native oracle that
reports exactly which passphrase arguments it received. -/
theorem C8_absent_equals_empty_passphrase :
    passwordArgs defaultPassword = passwordArgs [] ∧
    passwordArgs defaultPassword = ⟨Option.none, 0⟩ ∧
    (Pki.construct PkType.none).parseKey pwdProbe [48] defaultPassword =
      (Pki.construct PkType.none).parseKey pwdProbe [48] [] ∧
    ((Pki.construct PkType.none).parseKey pwdProbe [48] defaultPassword).1 =
      -1000 := by
  refine ⟨rfl, rfl, rfl, by decide⟩

/-- Claim C8, amended: an absent passphrase and a present-but-empty passphrase
pass identical arguments to the native parse primitive (NULL pointer, length 0);
only a non-empty passphrase is distinguishable from an absent one — it passes a
non-NULL pointer and its positive length. -/
theorem C8_passphrase_boundary_amended (password : Bytes) :
    passwordArgs defaultPassword = ⟨Option.none, 0⟩ ∧
    (passwordArgs password = passwordArgs defaultPassword ↔ password = []) ∧
    (∀ native p k, Pki.parseKey native p k defaultPassword =
      Pki.parseKey native p k []) := by
  refine ⟨rfl, ?_, fun _ _ _ => rfl⟩
  cases password with
  | nil => simp [defaultPassword]
  | cons b l => simp [passwordArgs, defaultPassword]

/-- Witness for `C8_passphrase_boundary_amended`: the empty passphrase is
indistinguishable from the default, a one-byte passphrase is not. -/
theorem C8_passphrase_boundary_amended_holds :
    passwordArgs [] = passwordArgs defaultPassword ∧
    passwordArgs [7] ≠ passwordArgs defaultPassword :=
  ⟨(C8_passphrase_boundary_amended []).2.1.mpr rfl,
   fun h => by simpa using (C8_passphrase_boundary_amended [7]).2.1.mp h⟩

/-- Claim C9: `sign` and `verify` pass the constant 0 as the digest-length
argument of the native primitive: the wrapper's result depends on the native
oracle only through its values at digest-length 0, for every message, signature
and hash algorithm (including `POLARSSL_MD_NONE`). -/
theorem C9_digest_length_zero (sn sn2 : PkSignNative) (vn vn2 : PkVerifyNative)
    (hs : ∀ a h, sn a h 0 = sn2 a h 0)
    (hv : ∀ a h s slen, vn a h 0 s slen = vn2 a h 0 s slen)
    (hashFn : HashFn) (p : Pki) (m sig : Bytes) (alg : MdType) :
    p.sign sn hashFn m alg = p.sign sn2 hashFn m alg ∧
    p.verify vn hashFn m sig alg = p.verify vn2 hashFn m sig alg := by
  constructor
  · simp only [Pki.sign]
    rw [hs]
  · simp only [Pki.verify]
    rw [hv]

/-- Witness for `C9_digest_length_zero`: a native oracle that fails whenever the
digest-length argument is nonzero behaves, through `sign` and `verify`, exactly
like the oracle that always succeeds — the nonzero branch is never exercised. -/
theorem C9_digest_length_zero_holds :
    samplePki.sign signLenProbe sampleHash [1] MdType.none =
      samplePki.sign signLenConst sampleHash [1] MdType.none ∧
    samplePki.verify verifyLenProbe sampleHash [1] [2] MdType.none =
      samplePki.verify verifyLenConst sampleHash [1] [2] MdType.none :=
  C9_digest_length_zero signLenProbe signLenConst verifyLenProbe verifyLenConst
    (fun _ _ => rfl) (fun _ _ _ _ => rfl) sampleHash samplePki [1] [2] MdType.none

/-- Claim C10: on a context whose key capacity in bytes is 0 (as for the
empty-constructed context), `checkSize` accepts exactly the empty input, and for
every non-empty input `encrypt` and `decrypt` return the empty result without the
native primitive being invoked (the result does not depend on the oracle). -/
theorem C10_empty_context_size_guard (p : Pki) (data : Bytes)
    (native native2 : PkCipherNative) (h0 : p.keySizeBytes = 0) :
    (p.checkSize data = true ↔ data = []) ∧
    (data ≠ [] →
      p.encrypt native data = [] ∧ p.decrypt native data = [] ∧
      p.encrypt native data = p.encrypt native2 data ∧
      p.decrypt native data = p.decrypt native2 data) := by
  have hcs : p.checkSize data = true ↔ data = [] := by
    simp [Pki.checkSize, h0, Nat.le_zero, List.length_eq_zero]
  refine ⟨hcs, ?_⟩
  intro hne
  have hf : p.checkSize data = false := by
    cases hx : p.checkSize data
    · rfl
    · exact absurd (hcs.mp hx) hne
  simp [Pki.encrypt, Pki.decrypt, hf]

/-- Witness for `C10_empty_context_size_guard`: the empty-constructed context has
capacity 0; its guard accepts the empty input, and a 1-byte input makes both
ciphers return empty for any native oracle. -/
theorem C10_empty_context_size_guard_holds :
    (Pki.construct PkType.none).checkSize [] = true ∧
    (Pki.construct PkType.none).encrypt cipherOk [1] = [] ∧
    (Pki.construct PkType.none).decrypt cipherOk [1] = [] :=
  ⟨(C10_empty_context_size_guard (Pki.construct PkType.none) [] cipherOk
      cipherFail rfl).1.mpr rfl,
   ((C10_empty_context_size_guard (Pki.construct PkType.none) [1] cipherOk
      cipherFail rfl).2 (by decide)).1,
   ((C10_empty_context_size_guard (Pki.construct PkType.none) [1] cipherOk
      cipherFail rfl).2 (by decide)).2.1⟩

end QPolarSSL
